import Mathlib

/-!
Verification development for the traffic-accident analysis script
(traffic_accident_analysis.py).  The script is a linear pandas pipeline:
load a CSV out of a zip archive, derive calendar features from the
Start_Time column, compute per-dimension counts and grouped means, render
six charts, and print a summary report.  We embed the table as a list of
rows, the pandas aggregations as list functions, and the step structure of
the script as a function from the available columns to the set of executed
steps and written files.
-/

namespace Traffic

/-- Parsed timestamp as pandas exposes it through the dt accessor:
hour in 0..23, dayofweek in 0..6 with 0 = Monday (pandas convention),
plus month and year.  A raw Start_Time string that fails to parse under
pd.to_datetime with errors=coerce becomes NaT, modelled as `none` at the
row level. -/
structure Timestamp where
  hour : Fin 24
  dayofweek : Fin 7
  month : ℕ
  year : ℤ
deriving DecidableEq, Repr

/-- Raw table row after Step 1 (read_csv) and the to_datetime coercion of
Step 2: the Start_Time cell is a parsed timestamp or NaT, the
Weather_Condition cell is a string or NaN, Severity is the ordinal code. -/
structure RawRow where
  startTime : Option Timestamp
  weather : Option String
  severity : ℚ
deriving DecidableEq, Repr

/-- Day names as produced by Series.dt.day_name for dayofweek 0..6. -/
def dayName : Fin 7 → String
  | 0 => "Monday"
  | 1 => "Tuesday"
  | 2 => "Wednesday"
  | 3 => "Thursday"
  | 4 => "Friday"
  | 5 => "Saturday"
  | 6 => "Sunday"

/-- Derived row after Step 2.  Hour and Day_of_Week are NaN (`none`) on
rows whose Start_Time failed to parse; Is_Weekend is the 0/1 integer from
astype(int); Time_Period is total because get_time_period returns Night
on NaN input. -/
structure Row where
  hour : Option (Fin 24)
  dayOfWeek : Option String
  isWeekend : ℕ
  timePeriod : String
  weather : Option String
  severity : ℚ
deriving DecidableEq, Repr

/-- Python comparison a <= x where x may be the float NaN (`none`):
every comparison against NaN is false. -/
def nanLe (a : ℚ) (x : Option ℚ) : Bool :=
  match x with
  | some v => decide (a ≤ v)
  | none => false

/-- Python comparison x < b where x may be the float NaN (`none`). -/
def nanLt (x : Option ℚ) (b : ℚ) : Bool :=
  match x with
  | some v => decide (v < b)
  | none => false

/-- Test 5 <= hour < 12 from get_time_period. -/
def in_morning (x : Option ℚ) : Bool := nanLe 5 x && nanLt x 12

/-- Test 12 <= hour < 17 from get_time_period. -/
def in_afternoon (x : Option ℚ) : Bool := nanLe 12 x && nanLt x 17

/-- Test 17 <= hour < 21 from get_time_period. -/
def in_evening (x : Option ℚ) : Bool := nanLe 17 x && nanLt x 21

/-- get_time_period from the script: chained if/elif on the hour value,
with Night as the fall-through branch.  The argument is the float Hour
cell, possibly NaN. -/
def get_time_period (hour : Option ℚ) : String :=
  if in_morning hour then "Morning"
  else if in_afternoon hour then "Afternoon"
  else if in_evening hour then "Evening"
  else "Night"

/-- The Hour cell of a raw row as the float fed to get_time_period:
the hour digit for a parsed Start_Time, NaN for NaT. -/
def hourFloat (r : RawRow) : Option ℚ :=
  r.startTime.map (fun t => (t.hour.val : ℚ))

/-- Step 2 feature derivation for one row: Hour and Day_of_Week via the
dt accessor (NaN on NaT), Is_Weekend as dayofweek.isin([5,6]).astype(int)
which yields 0 on NaT, and Time_Period as get_time_period applied to the
Hour cell. -/
def deriveRow (r : RawRow) : Row :=
  { hour := r.startTime.map (fun t => t.hour)
  , dayOfWeek := r.startTime.map (fun t => dayName t.dayofweek)
  , isWeekend :=
      match r.startTime with
      | some t => if t.dayofweek.val = 5 ∨ t.dayofweek.val = 6 then 1 else 0
      | none => 0
  , timePeriod := get_time_period (hourFloat r)
  , weather := r.weather
  , severity := r.severity }

/-- Step 2 applied to the whole table. -/
def deriveTable (raws : List RawRow) : List Row :=
  raws.map deriveRow

/-! ### Aggregations (Steps 3, 4 and 9)

value_counts on a column lists each distinct non-NaN value with the number
of rows carrying it; values with no row have no entry.  We embed each
value-counts series as an association list in the index order the script
produces (sort_index for hours, reindex(day_order) for days,
reindex(period_order) for periods), keeping only the non-NaN entries,
which is exactly what idxmax/idxmin/max/min see. -/

/-- Number of rows whose Hour cell equals h (NaN hours match nothing). -/
def countHour (rows : List Row) (h : ℕ) : ℕ :=
  (rows.filter (fun r =>
    match r.hour with
    | some x => x.val == h
    | none => false)).length

/-- hour_counts = df[Hour].value_counts().sort_index(): the hours present
in the table, in increasing order, each with its row count. -/
def hour_counts (rows : List Row) : List (ℕ × ℕ) :=
  (List.range 24).filterMap (fun h =>
    if countHour rows h = 0 then none else some (h, countHour rows h))

/-- day_order from the script. -/
def day_order : List String :=
  ["Monday", "Tuesday", "Wednesday", "Thursday", "Friday", "Saturday", "Sunday"]

/-- Number of rows whose Day_of_Week cell equals d. -/
def countDay (rows : List Row) (d : String) : ℕ :=
  (rows.filter (fun r =>
    match r.dayOfWeek with
    | some x => x == d
    | none => false)).length

/-- day_counts = df[Day_of_Week].value_counts().reindex(day_order), kept
to its non-NaN entries: the days of day_order with at least one row, in
day_order order, each with its row count. -/
def day_counts (rows : List Row) : List (String × ℕ) :=
  day_order.filterMap (fun d =>
    if countDay rows d = 0 then none else some (d, countDay rows d))

/-- period_order from the script. -/
def period_order : List String :=
  ["Morning", "Afternoon", "Evening", "Night"]

/-- Number of rows whose Time_Period cell equals p. -/
def countPeriod (rows : List Row) (p : String) : ℕ :=
  (rows.filter (fun r => r.timePeriod == p)).length

/-- period_counts = df[Time_Period].value_counts().reindex(period_order),
kept to its non-NaN entries. -/
def period_counts (rows : List Row) : List (String × ℕ) :=
  period_order.filterMap (fun p =>
    if countPeriod rows p = 0 then none else some (p, countPeriod rows p))

/-- Rows of one weather group (NaN Weather_Condition cells belong to no
group, as in pandas groupby). -/
def weatherGroup (rows : List Row) (w : String) : List Row :=
  rows.filter (fun r =>
    match r.weather with
    | some x => x == w
    | none => false)

/-- Mean Severity of one weather group: sum of the Severity cells divided
by the group size. -/
def meanSeverity (rows : List Row) (w : String) : ℚ :=
  ((weatherGroup rows w).map Row.severity).sum / ((weatherGroup rows w).length : ℚ)

/-- Distinct non-NaN Weather_Condition values, i.e. the groupby keys. -/
def weather_keys (rows : List Row) : List String :=
  (rows.filterMap Row.weather).dedup

/-- weather_severity = df.groupby(Weather_Condition)[Severity].mean():
one entry per weather key, carrying the mean Severity of the group.  The
script then sorts this series and keeps the head for plotting, which does
not change any group mean. -/
def weather_severity (rows : List Row) : List (String × ℚ) :=
  (weather_keys rows).map (fun w => (w, meanSeverity rows w))

/-! ### idxmax / idxmin / max / min on a value-counts series

pandas idxmax returns the index label of the first maximal value in the
series order and max returns the maximal value; dually for idxmin/min.
On an empty series they raise, modelled with Option. -/

/-- Walk the tail keeping the first entry with the strictly largest
value. -/
def maxPairAux (a : α) (v : ℕ) : List (α × ℕ) → α × ℕ
  | [] => (a, v)
  | (b, w) :: rest => if v < w then maxPairAux b w rest else maxPairAux a v rest

/-- First entry of the series holding the maximal value. -/
def maxPair? : List (α × ℕ) → Option (α × ℕ)
  | [] => none
  | (a, v) :: rest => some (maxPairAux a v rest)

/-- Series.idxmax. -/
def idxmax? (l : List (α × ℕ)) : Option α := (maxPair? l).map Prod.fst

/-- Series.max. -/
def vmax? (l : List (α × ℕ)) : Option ℕ := (maxPair? l).map Prod.snd

/-- Walk the tail keeping the first entry with the strictly smallest
value. -/
def minPairAux (a : α) (v : ℕ) : List (α × ℕ) → α × ℕ
  | [] => (a, v)
  | (b, w) :: rest => if w < v then minPairAux b w rest else minPairAux a v rest

/-- First entry of the series holding the minimal value. -/
def minPair? : List (α × ℕ) → Option (α × ℕ)
  | [] => none
  | (a, v) :: rest => some (minPairAux a v rest)

/-- Series.idxmin. -/
def idxmin? (l : List (α × ℕ)) : Option α := (minPair? l).map Prod.fst

/-- Series.min. -/
def vmin? (l : List (α × ℕ)) : Option ℕ := (minPair? l).map Prod.snd

/-! ### Step 9 statistics and report fragments -/

/-- peak_hour = hour_counts.idxmax(). -/
def peak_hour (rows : List Row) : Option ℕ := idxmax? (hour_counts rows)

/-- peak_hour_count = hour_counts.max(). -/
def peak_hour_count (rows : List Row) : Option ℕ := vmax? (hour_counts rows)

/-- lowest_hour = hour_counts.idxmin(). -/
def lowest_hour (rows : List Row) : Option ℕ := idxmin? (hour_counts rows)

/-- lowest_hour_count = hour_counts.min(). -/
def lowest_hour_count (rows : List Row) : Option ℕ := vmin? (hour_counts rows)

/-- peak_day = day_counts.idxmax(). -/
def peak_day (rows : List Row) : Option String := idxmax? (day_counts rows)

/-- peak_day_count = day_counts.max(). -/
def peak_day_count (rows : List Row) : Option ℕ := vmax? (day_counts rows)

/-- safest_day = day_counts.idxmin(). -/
def safest_day (rows : List Row) : Option String := idxmin? (day_counts rows)

/-- safest_day_count = day_counts.min(). -/
def safest_day_count (rows : List Row) : Option ℕ := vmin? (day_counts rows)

/-- peak_period = period_counts.idxmax(). -/
def peak_period (rows : List Row) : Option String := idxmax? (period_counts rows)

/-- peak_period_count = period_counts.max(). -/
def peak_period_count (rows : List Row) : Option ℕ := vmax? (period_counts rows)

/-- Percentage as printed in the report: count / len(df) * 100. -/
def pct (c total : ℕ) : ℚ := (c : ℚ) / (total : ℚ) * 100

/-- Number of rows with Is_Weekend equal to v, as in
(df[Is_Weekend]==v).sum(). -/
def countIsWeekend (rows : List Row) (v : ℕ) : ℕ :=
  (rows.filter (fun r => r.isWeekend == v)).length

/-- The peak-hours window of the recommendations section, formatted as
the f-string builds it: "{peak_hour-1}:00-{peak_hour+2}:00" with plain
Python integer arithmetic, no clamping and no wrap-around modulo 24. -/
def enforcement_window (peakHour : ℤ) : String :=
  toString (peakHour - 1) ++ ":00-" ++ toString (peakHour + 2) ++ ":00"

/-- The window string printed for a given table: the peak hour is
hour_counts.idxmax(), an hour label cast to int. -/
def report_window (rows : List Row) : Option String :=
  Option.map (fun h : ℕ => enforcement_window (h : ℤ)) (peak_hour rows)

/-! ### Pipeline structure (Steps 1..9)

Step 1 exits when archive.zip is missing or the archive holds no name
ending in .csv; otherwise it extracts the first such name and reads at
most 50000 rows.  Steps 4..8 are guarded by column checks on the loaded
table.  Steps 2, 3 and 9 have no guard, but they are not total: Step 2
reads df[Start_Time] at line 72, Step 3 bars the weekday/weekend pair at
line 152 and pivots on Severity at line 159 before its savefig at line
167, and Step 9 computes idxmax/idxmin statistics and the report string
unguarded; each of these raises an uncaught exception on tables missing
the data it touches, aborting the run at that point. -/

/-- Python str.endswith, stated on the character list of the string. -/
def endsWithPy (s suffix : String) : Bool :=
  suffix.data.isSuffixOf s.data

/-- The CSV entry Step 1 picks: the first name of the listing ending in
.csv, as csv_files[0] after the endswith filter. -/
def selectCsv (fileList : List String) : Option String :=
  (fileList.filter (fun f => endsWithPy f ".csv")).head?

/-- read_csv with nrows=50000: the first 50000 records of the file. -/
def loadRows (csv : List RawRow) : List RawRow :=
  csv.take 50000

/-- env_cols from Step 7. -/
def env_cols : List String :=
  ["Temperature(F)", "Humidity(%)", "Visibility(mi)", "Wind_Speed(mph)", "Pressure(in)"]

/-- numeric_cols from Step 8: Severity plus the environmental columns. -/
def numeric_cols : List String := "Severity" :: env_cols

/-- available_numeric = [col for col in numeric_cols if col in df.columns]. -/
def available_numeric (cols : List String) : List String :=
  numeric_cols.filter (fun c => cols.contains c)

/-- Guard of Step 8: len(available_numeric) >= 2. -/
def runsCorr (cols : List String) : Bool := 2 ≤ (available_numeric cols).length

/-- Reading of claim C5: the columns entering the correlation are the
environmental columns present in the table. -/
def claimed_corr_cols (cols : List String) : List String :=
  env_cols.filter (fun c => cols.contains c)

/-! ### Demonstration tables used by the witness theorems -/

/-- Saturday 05:xx, Clear, severity 2. -/
def rawA : RawRow :=
  { startTime := some { hour := 5, dayofweek := 5, month := 1, year := 2020 }
  , weather := some "Clear", severity := 2 }

/-- Tuesday 05:xx, Rain, severity 4. -/
def rawB : RawRow :=
  { startTime := some { hour := 5, dayofweek := 1, month := 3, year := 2021 }
  , weather := some "Rain", severity := 4 }

/-- Tuesday 13:xx, Clear, severity 3. -/
def rawC : RawRow :=
  { startTime := some { hour := 13, dayofweek := 1, month := 3, year := 2021 }
  , weather := some "Clear", severity := 3 }

/-- Row whose Start_Time failed to parse. -/
def rawNaT : RawRow := { startTime := none, weather := none, severity := 1 }

/-- Small derived table with peak hour 5. -/
def demo : List Row := deriveTable [rawA, rawB, rawC]

/-- Table whose single row is at hour 0. -/
def demo0 : List Row :=
  deriveTable [{ startTime := some { hour := 0, dayofweek := 2, month := 6, year := 2019 }
               , weather := none, severity := 1 }]

/-- Table whose single row is at hour 23. -/
def demo23 : List Row :=
  deriveTable [{ startTime := some { hour := 23, dayofweek := 4, month := 6, year := 2019 }
               , weather := none, severity := 1 }]

/-- Column set holding Severity and two environmental columns only. -/
def colsTwoEnv : List String :=
  ["Start_Time", "Severity", "Temperature(F)", "Humidity(%)"]

/-- Archive listing with a non-CSV entry ahead of the CSV entries. -/
def demoListing : List String :=
  ["README.md", "US_Accidents_March23.csv", "extra.csv"]

/-- Percentage printed for the peak hour:
peak_hour_count / len(df) * 100. -/
def peak_hour_pct (rows : List Row) : Option ℚ :=
  (peak_hour_count rows).map (fun c => pct c rows.length)

/-- Percentage printed for the lowest hour. -/
def lowest_hour_pct (rows : List Row) : Option ℚ :=
  (lowest_hour_count rows).map (fun c => pct c rows.length)

/-- Percentage printed for the most dangerous day. -/
def peak_day_pct (rows : List Row) : Option ℚ :=
  (peak_day_count rows).map (fun c => pct c rows.length)

/-- Percentage printed for the safest day. -/
def safest_day_pct (rows : List Row) : Option ℚ :=
  (safest_day_count rows).map (fun c => pct c rows.length)

/-- Percentage printed for the most dangerous period. -/
def peak_period_pct (rows : List Row) : Option ℚ :=
  (peak_period_count rows).map (fun c => pct c rows.length)

/-! ### Lemmas on count series -/

/-- Membership in a value-counts series: an entry is a base value with
its nonzero count. -/
lemma mem_countSeries {α : Type} {base : List α} {cnt : α → ℕ} {d : α} {c : ℕ} :
    (d, c) ∈ base.filterMap (fun x => if cnt x = 0 then none else some (x, cnt x)) ↔
      d ∈ base ∧ cnt d = c ∧ c ≠ 0 := by
  rw [List.mem_filterMap]
  constructor
  · rintro ⟨a, ha, hfa⟩
    by_cases h0 : cnt a = 0
    · simp [h0] at hfa
    · simp only [h0, if_false, Option.some.injEq, Prod.mk.injEq] at hfa
      obtain ⟨rfl, hc⟩ := hfa
      exact ⟨ha, hc, fun hcz => h0 (hc.trans hcz)⟩
  · rintro ⟨hd, hc, hne⟩
    refine ⟨d, hd, ?_⟩
    have h0 : ¬ cnt d = 0 := fun h => hne (hc ▸ h)
    rw [if_neg h0, hc]

lemma mem_hour_counts {rows : List Row} {h c : ℕ} :
    (h, c) ∈ hour_counts rows ↔ h ∈ List.range 24 ∧ countHour rows h = c ∧ c ≠ 0 := by
  unfold hour_counts
  exact mem_countSeries

lemma mem_day_counts {rows : List Row} {d : String} {c : ℕ} :
    (d, c) ∈ day_counts rows ↔ d ∈ day_order ∧ countDay rows d = c ∧ c ≠ 0 := by
  unfold day_counts
  exact mem_countSeries

lemma mem_period_counts {rows : List Row} {p : String} {c : ℕ} :
    (p, c) ∈ period_counts rows ↔ p ∈ period_order ∧ countPeriod rows p = c ∧ c ≠ 0 := by
  unfold period_counts
  exact mem_countSeries

/-! ### Lemmas on idxmax / idxmin -/

lemma maxPairAux_mem {α : Type} (a : α) (v : ℕ) (l : List (α × ℕ)) :
    maxPairAux a v l ∈ (a, v) :: l := by
  induction l generalizing a v with
  | nil => simp [maxPairAux]
  | cons q rest ih =>
    obtain ⟨b, w⟩ := q
    unfold maxPairAux
    split
    · exact List.mem_cons_of_mem _ (ih b w)
    · rcases List.mem_cons.mp (ih a v) with h | h
      · exact List.mem_cons.mpr (Or.inl h)
      · exact List.mem_cons_of_mem _ (List.mem_cons_of_mem _ h)

lemma maxPairAux_le {α : Type} (a : α) (v : ℕ) (l : List (α × ℕ)) :
    ∀ p ∈ (a, v) :: l, p.2 ≤ (maxPairAux a v l).2 := by
  induction l generalizing a v with
  | nil =>
    intro p hp
    rcases List.mem_cons.mp hp with rfl | h
    · simp [maxPairAux]
    · simp at h
  | cons q rest ih =>
    obtain ⟨b, w⟩ := q
    intro p hp
    unfold maxPairAux
    split
    · rename_i hvw
      rcases List.mem_cons.mp hp with rfl | hp'
      · exact le_trans (le_of_lt hvw) (ih b w (b, w) (List.mem_cons_self _ _))
      · exact ih b w p hp'
    · rename_i hvw
      rcases List.mem_cons.mp hp with rfl | hp'
      · exact ih a v (a, v) (List.mem_cons_self _ _)
      · rcases List.mem_cons.mp hp' with rfl | hp''
        · exact le_trans (le_of_not_lt hvw) (ih a v (a, v) (List.mem_cons_self _ _))
        · exact ih a v p (List.mem_cons_of_mem _ hp'')

lemma maxPair?_spec {α : Type} {l : List (α × ℕ)} {p : α × ℕ}
    (h : maxPair? l = some p) : p ∈ l ∧ ∀ q ∈ l, q.2 ≤ p.2 := by
  cases l with
  | nil => simp [maxPair?] at h
  | cons a rest =>
    obtain ⟨x, v⟩ := a
    simp only [maxPair?, Option.some.injEq] at h
    subst h
    exact ⟨maxPairAux_mem x v rest, maxPairAux_le x v rest⟩

lemma minPairAux_mem {α : Type} (a : α) (v : ℕ) (l : List (α × ℕ)) :
    minPairAux a v l ∈ (a, v) :: l := by
  induction l generalizing a v with
  | nil => simp [minPairAux]
  | cons q rest ih =>
    obtain ⟨b, w⟩ := q
    unfold minPairAux
    split
    · exact List.mem_cons_of_mem _ (ih b w)
    · rcases List.mem_cons.mp (ih a v) with h | h
      · exact List.mem_cons.mpr (Or.inl h)
      · exact List.mem_cons_of_mem _ (List.mem_cons_of_mem _ h)

lemma minPairAux_le {α : Type} (a : α) (v : ℕ) (l : List (α × ℕ)) :
    ∀ p ∈ (a, v) :: l, (minPairAux a v l).2 ≤ p.2 := by
  induction l generalizing a v with
  | nil =>
    intro p hp
    rcases List.mem_cons.mp hp with rfl | h
    · simp [minPairAux]
    · simp at h
  | cons q rest ih =>
    obtain ⟨b, w⟩ := q
    intro p hp
    unfold minPairAux
    split
    · rename_i hwv
      rcases List.mem_cons.mp hp with rfl | hp'
      · exact le_trans (ih b w (b, w) (List.mem_cons_self _ _)) (le_of_lt hwv)
      · exact ih b w p hp'
    · rename_i hwv
      rcases List.mem_cons.mp hp with rfl | hp'
      · exact ih a v (a, v) (List.mem_cons_self _ _)
      · rcases List.mem_cons.mp hp' with rfl | hp''
        · exact le_trans (ih a v (a, v) (List.mem_cons_self _ _)) (le_of_not_lt hwv)
        · exact ih a v p (List.mem_cons_of_mem _ hp'')

lemma minPair?_spec {α : Type} {l : List (α × ℕ)} {p : α × ℕ}
    (h : minPair? l = some p) : p ∈ l ∧ ∀ q ∈ l, p.2 ≤ q.2 := by
  cases l with
  | nil => simp [minPair?] at h
  | cons a rest =>
    obtain ⟨x, v⟩ := a
    simp only [minPair?, Option.some.injEq] at h
    subst h
    exact ⟨minPairAux_mem x v rest, minPairAux_le x v rest⟩

lemma idxmax?_spec {α : Type} {l : List (α × ℕ)} {b : α}
    (h : idxmax? l = some b) :
    ∃ v, maxPair? l = some (b, v) ∧ (b, v) ∈ l ∧ vmax? l = some v ∧
      ∀ q ∈ l, q.2 ≤ v := by
  unfold idxmax? at h
  cases hm : maxPair? l with
  | none => rw [hm] at h; exact absurd h (by simp)
  | some p =>
    rw [hm] at h
    obtain ⟨x, v⟩ := p
    have hb : x = b := by simpa using h
    subst hb
    obtain ⟨hmem, hle⟩ := maxPair?_spec hm
    exact ⟨v, rfl, hmem, by simp [vmax?, hm], hle⟩

lemma idxmin?_spec {α : Type} {l : List (α × ℕ)} {b : α}
    (h : idxmin? l = some b) :
    ∃ v, minPair? l = some (b, v) ∧ (b, v) ∈ l ∧ vmin? l = some v ∧
      ∀ q ∈ l, v ≤ q.2 := by
  unfold idxmin? at h
  cases hm : minPair? l with
  | none => rw [hm] at h; exact absurd h (by simp)
  | some p =>
    rw [hm] at h
    obtain ⟨x, v⟩ := p
    have hb : x = b := by simpa using h
    subst hb
    obtain ⟨hmem, hle⟩ := minPair?_spec hm
    exact ⟨v, rfl, hmem, by simp [vmin?, hm], hle⟩

/-- idxmax on a value-counts series returns a present value; max returns
its count, which dominates every entry. -/
lemma countSeries_idxmax_spec {α : Type} {base : List α} {cnt : α → ℕ} {b : α}
    (h : idxmax? (base.filterMap
      (fun x => if cnt x = 0 then none else some (x, cnt x))) = some b) :
    b ∈ base ∧ cnt b ≠ 0 ∧
    vmax? (base.filterMap
      (fun x => if cnt x = 0 then none else some (x, cnt x))) = some (cnt b) ∧
    ∀ q ∈ base.filterMap (fun x => if cnt x = 0 then none else some (x, cnt x)),
      q.2 ≤ cnt b := by
  obtain ⟨v, _, hmem, hvm, hle⟩ := idxmax?_spec h
  obtain ⟨hb, hcv, hvne⟩ := mem_countSeries.mp hmem
  refine ⟨hb, ?_, ?_, ?_⟩
  · rw [hcv]; exact hvne
  · rw [hcv]; exact hvm
  · intro q hq; rw [hcv]; exact hle q hq

/-- idxmin on a value-counts series returns a present value; min returns
its count, below every entry. -/
lemma countSeries_idxmin_spec {α : Type} {base : List α} {cnt : α → ℕ} {b : α}
    (h : idxmin? (base.filterMap
      (fun x => if cnt x = 0 then none else some (x, cnt x))) = some b) :
    b ∈ base ∧ cnt b ≠ 0 ∧
    vmin? (base.filterMap
      (fun x => if cnt x = 0 then none else some (x, cnt x))) = some (cnt b) ∧
    ∀ q ∈ base.filterMap (fun x => if cnt x = 0 then none else some (x, cnt x)),
      cnt b ≤ q.2 := by
  obtain ⟨v, _, hmem, hvm, hle⟩ := idxmin?_spec h
  obtain ⟨hb, hcv, hvne⟩ := mem_countSeries.mp hmem
  refine ⟨hb, ?_, ?_, ?_⟩
  · rw [hcv]; exact hvne
  · rw [hcv]; exact hvm
  · intro q hq; rw [hcv]; exact hle q hq

/-! ### Lemmas on the weather grouping -/

lemma mem_weather_keys {rows : List Row} {w : String} :
    w ∈ weather_keys rows ↔ ∃ r ∈ rows, r.weather = some w := by
  unfold weather_keys
  rw [List.mem_dedup, List.mem_filterMap]

lemma mem_weather_severity {rows : List Row} {w : String} {m : ℚ} :
    (w, m) ∈ weather_severity rows ↔
      w ∈ weather_keys rows ∧ m = meanSeverity rows w := by
  unfold weather_severity
  rw [List.mem_map]
  constructor
  · rintro ⟨x, hx, hxm⟩
    obtain ⟨rfl, rfl⟩ := Prod.mk.injEq .. ▸ hxm
    exact ⟨hx, rfl⟩
  · rintro ⟨hw, rfl⟩
    exact ⟨w, hw, rfl⟩

/-! ### Lemmas on the time-period buckets and derived fields -/

/-- Bucket characterization of get_time_period on the 24 possible parsed
hours. -/
lemma time_period_cases : ∀ h : Fin 24,
    (get_time_period (some (h.val : ℚ)) = "Morning" ↔ 5 ≤ h.val ∧ h.val < 12) ∧
    (get_time_period (some (h.val : ℚ)) = "Afternoon" ↔ 12 ≤ h.val ∧ h.val < 17) ∧
    (get_time_period (some (h.val : ℚ)) = "Evening" ↔ 17 ≤ h.val ∧ h.val < 21) ∧
    (get_time_period (some (h.val : ℚ)) = "Night" ↔ (h.val < 5 ∨ 21 ≤ h.val)) := by
  decide

/-- get_time_period always lands in one of the four labels. -/
lemma time_period_total (x : Option ℚ) :
    get_time_period x = "Morning" ∨ get_time_period x = "Afternoon" ∨
      get_time_period x = "Evening" ∨ get_time_period x = "Night" := by
  unfold get_time_period
  split
  · exact Or.inl rfl
  · split
    · exact Or.inr (Or.inl rfl)
    · split
      · exact Or.inr (Or.inr (Or.inl rfl))
      · exact Or.inr (Or.inr (Or.inr rfl))

lemma countPeriod_cons (x : Row) (xs : List Row) (p : String) :
    countPeriod (x :: xs) p
      = (if x.timePeriod = p then 1 else 0) + countPeriod xs p := by
  unfold countPeriod
  rw [List.filter_cons]
  split
  · rename_i hx
    rw [if_pos (by simpa using hx)]
    simp [Nat.add_comm]
  · rename_i hx
    rw [if_neg (by simpa using hx)]
    simp

lemma countIsWeekend_cons (x : Row) (xs : List Row) (v : ℕ) :
    countIsWeekend (x :: xs) v
      = (if x.isWeekend = v then 1 else 0) + countIsWeekend xs v := by
  unfold countIsWeekend
  rw [List.filter_cons]
  split
  · rename_i hx
    rw [if_pos (by simpa using hx)]
    simp [Nat.add_comm]
  · rename_i hx
    rw [if_neg (by simpa using hx)]
    simp

lemma isWeekend_zero_or_one (r : RawRow) :
    (deriveRow r).isWeekend = 0 ∨ (deriveRow r).isWeekend = 1 := by
  unfold deriveRow
  cases r.startTime with
  | none => exact Or.inl rfl
  | some t =>
    simp only []
    split
    · exact Or.inr rfl
    · exact Or.inl rfl

/-- Weekday plus weekend rows partition any table of 0/1 flags. -/
lemma countIsWeekend_partition (rows : List Row)
    (hall : ∀ r ∈ rows, r.isWeekend = 0 ∨ r.isWeekend = 1) :
    countIsWeekend rows 0 + countIsWeekend rows 1 = rows.length := by
  induction rows with
  | nil => rfl
  | cons r rest ih =>
    have hr := hall r (List.mem_cons_self _ _)
    have hrest := ih (fun x hx => hall x (List.mem_cons_of_mem _ hx))
    rw [countIsWeekend_cons, countIsWeekend_cons, List.length_cons]
    rcases hr with h0 | h1
    · rw [if_pos h0, if_neg (by omega)]
      omega
    · rw [if_neg (by omega), if_pos h1]
      omega

/-- Two exact percentages of complementary counts add to 100. -/
lemma pct_add {a b n : ℕ} (h : a + b = n) (hn : n ≠ 0) :
    pct a n + pct b n = 100 := by
  have hn' : (n : ℚ) ≠ 0 := Nat.cast_ne_zero.mpr hn
  have hab : (a : ℚ) + b = n := by exact_mod_cast congrArg (fun k : ℕ => (k : ℚ)) h
  unfold pct
  field_simp
  linear_combination 100 * hab

/-! ### Lemmas on the pipeline model -/

/-- C1: each per-dimension aggregate equals its direct reference value.
Every entry of hour_counts, day_counts and period_counts carries the exact
number of rows with that value, every value with at least one row has its
entry, and the grouped severity mean of every weather condition with at
least one row is the arithmetic mean of Severity over its rows. -/
theorem spec_C1 (rows : List Row) :
    (∀ h c, (h, c) ∈ hour_counts rows → c = countHour rows h) ∧
    (∀ h, h < 24 → countHour rows h ≠ 0 →
      (h, countHour rows h) ∈ hour_counts rows) ∧
    (∀ d c, (d, c) ∈ day_counts rows → c = countDay rows d) ∧
    (∀ d, d ∈ day_order → countDay rows d ≠ 0 →
      (d, countDay rows d) ∈ day_counts rows) ∧
    (∀ p c, (p, c) ∈ period_counts rows → c = countPeriod rows p) ∧
    (∀ p, p ∈ period_order → countPeriod rows p ≠ 0 →
      (p, countPeriod rows p) ∈ period_counts rows) ∧
    (∀ w m, (w, m) ∈ weather_severity rows → m = meanSeverity rows w) ∧
    (∀ w, (∃ r ∈ rows, r.weather = some w) →
      (w, meanSeverity rows w) ∈ weather_severity rows) := by
  refine ⟨?_, ?_, ?_, ?_, ?_, ?_, ?_, ?_⟩
  · intro h c hm
    exact ((mem_hour_counts.mp hm).2.1).symm
  · intro h hlt hne
    exact mem_hour_counts.mpr ⟨List.mem_range.mpr hlt, rfl, hne⟩
  · intro d c hm
    exact ((mem_day_counts.mp hm).2.1).symm
  · intro d hd hne
    exact mem_day_counts.mpr ⟨hd, rfl, hne⟩
  · intro p c hm
    exact ((mem_period_counts.mp hm).2.1).symm
  · intro p hp hne
    exact mem_period_counts.mpr ⟨hp, rfl, hne⟩
  · intro w m hm
    exact (mem_weather_severity.mp hm).2
  · intro w hw
    exact mem_weather_severity.mpr ⟨mem_weather_keys.mpr hw, rfl⟩

/-- Witness for C1 on the three-row demo table: hour 5 appears twice,
Tuesday twice, Morning twice, and the Clear group has mean severity
(2 + 3) / 2. -/
theorem spec_C1_witness :
    ((5 : ℕ), (2 : ℕ)) ∈ hour_counts demo ∧
    ("Tuesday", (2 : ℕ)) ∈ day_counts demo ∧
    ("Morning", (2 : ℕ)) ∈ period_counts demo ∧
    ("Clear", (5 / 2 : ℚ)) ∈ weather_severity demo := by
  refine ⟨(spec_C1 demo).2.1 5 (by decide) (by decide),
    (spec_C1 demo).2.2.2.1 "Tuesday" (by decide) (by decide),
    (spec_C1 demo).2.2.2.2.2.1 "Morning" (by decide) (by decide), ?_⟩
  have h := (spec_C1 demo).2.2.2.2.2.2.2 "Clear" ⟨deriveRow rawA, by decide, by decide⟩
  have hg : weatherGroup demo "Clear" = [deriveRow rawA, deriveRow rawC] := by decide
  have hm : meanSeverity demo "Clear" = 5 / 2 := by
    unfold meanSeverity
    rw [hg]
    norm_num [deriveRow, rawA, rawC]
  rwa [hm] at h

/-- C2: the Time_Period cell of every row is get_time_period of the Hour
cell, and on every row with a parsed timestamp it is Morning iff
5 <= hour < 12, Afternoon iff 12 <= hour < 17, Evening iff
17 <= hour < 21, and Night iff hour < 5 or hour >= 21. -/
theorem spec_C2 (r : RawRow) :
    (deriveRow r).timePeriod = get_time_period (hourFloat r) ∧
    (∀ t : Timestamp, r.startTime = some t →
      (((deriveRow r).timePeriod = "Morning" ↔ 5 ≤ t.hour.val ∧ t.hour.val < 12) ∧
       ((deriveRow r).timePeriod = "Afternoon" ↔ 12 ≤ t.hour.val ∧ t.hour.val < 17) ∧
       ((deriveRow r).timePeriod = "Evening" ↔ 17 ≤ t.hour.val ∧ t.hour.val < 21) ∧
       ((deriveRow r).timePeriod = "Night" ↔ (t.hour.val < 5 ∨ 21 ≤ t.hour.val)))) := by
  constructor
  · rfl
  · intro t ht
    have hf : (deriveRow r).timePeriod = get_time_period (some ((t.hour.val : ℚ))) := by
      show get_time_period (hourFloat r) = _
      unfold hourFloat
      rw [ht]
      rfl
    rw [hf]
    exact time_period_cases t.hour

/-- Witness for C2 at the Saturday 05:xx demo row: its period is Morning
and 5 lies in the morning bucket. -/
theorem spec_C2_witness :
    (deriveRow rawA).timePeriod = "Morning" ↔ 5 ≤ (5 : ℕ) ∧ (5 : ℕ) < 12 :=
  ((spec_C2 rawA).2 { hour := 5, dayofweek := 5, month := 1, year := 2020 } rfl).1

/-- C8: get_time_period is total, every input passing none of the three
range tests lands in Night, the NaN input lands in Night, every row with
an unparseable Start_Time gets Time_Period Night, and such rows are
counted inside the Night period count. -/
theorem spec_C8 :
    (∀ x : Option ℚ, get_time_period x = "Morning" ∨ get_time_period x = "Afternoon" ∨
      get_time_period x = "Evening" ∨ get_time_period x = "Night") ∧
    (∀ x : Option ℚ, in_morning x = false → in_afternoon x = false →
      in_evening x = false → get_time_period x = "Night") ∧
    get_time_period none = "Night" ∧
    (∀ r : RawRow, r.startTime = none → (deriveRow r).timePeriod = "Night") ∧
    (∀ raws : List RawRow,
      (raws.filter (fun r => r.startTime.isNone)).length
        ≤ countPeriod (deriveTable raws) "Night") := by
  have hnat : ∀ r : RawRow, r.startTime = none → (deriveRow r).timePeriod = "Night" := by
    intro r h
    show get_time_period (hourFloat r) = "Night"
    unfold hourFloat
    rw [h]
    rfl
  refine ⟨time_period_total, ?_, rfl, hnat, ?_⟩
  · intro x h1 h2 h3
    unfold get_time_period
    rw [h1, h2, h3]
    rfl
  · intro raws
    rw [← List.countP_eq_length_filter]
    have hc : countPeriod (deriveTable raws) "Night"
        = raws.countP (fun r => (deriveRow r).timePeriod == "Night") := by
      unfold countPeriod deriveTable
      rw [← List.countP_eq_length_filter, List.countP_map]
      rfl
    rw [hc]
    refine List.countP_mono_left ?_
    intro r _ hr
    have : r.startTime = none := Option.isNone_iff_eq_none.mp hr
    simpa using hnat r this

/-- Witness for C8: the NaT demo row maps to Night. -/
theorem spec_C8_witness : (deriveRow rawNaT).timePeriod = "Night" :=
  spec_C8.2.2.2.1 rawNaT rfl

/-- C3: each statistic of the summary report matches its reference value.
The peak (lowest) hour is a present hour with maximal (minimal) count and
the printed count and percentage are the count of that hour and
count / total * 100; likewise for the most dangerous and safest day and
the most dangerous period. -/
theorem spec_C3 (rows : List Row) :
    (∀ ph, peak_hour rows = some ph →
      countHour rows ph ≠ 0 ∧
      peak_hour_count rows = some (countHour rows ph) ∧
      (∀ h c, (h, c) ∈ hour_counts rows → c ≤ countHour rows ph) ∧
      peak_hour_pct rows = some (pct (countHour rows ph) rows.length)) ∧
    (∀ lh, lowest_hour rows = some lh →
      countHour rows lh ≠ 0 ∧
      lowest_hour_count rows = some (countHour rows lh) ∧
      (∀ h c, (h, c) ∈ hour_counts rows → countHour rows lh ≤ c) ∧
      lowest_hour_pct rows = some (pct (countHour rows lh) rows.length)) ∧
    (∀ pd, peak_day rows = some pd →
      countDay rows pd ≠ 0 ∧
      peak_day_count rows = some (countDay rows pd) ∧
      (∀ d c, (d, c) ∈ day_counts rows → c ≤ countDay rows pd) ∧
      peak_day_pct rows = some (pct (countDay rows pd) rows.length)) ∧
    (∀ sd, safest_day rows = some sd →
      countDay rows sd ≠ 0 ∧
      safest_day_count rows = some (countDay rows sd) ∧
      (∀ d c, (d, c) ∈ day_counts rows → countDay rows sd ≤ c) ∧
      safest_day_pct rows = some (pct (countDay rows sd) rows.length)) ∧
    (∀ pp, peak_period rows = some pp →
      countPeriod rows pp ≠ 0 ∧
      peak_period_count rows = some (countPeriod rows pp) ∧
      (∀ p c, (p, c) ∈ period_counts rows → c ≤ countPeriod rows pp) ∧
      peak_period_pct rows = some (pct (countPeriod rows pp) rows.length)) := by
  refine ⟨?_, ?_, ?_, ?_, ?_⟩
  · intro ph hp
    unfold peak_hour hour_counts at hp
    obtain ⟨_, hne, hvm, hle⟩ := countSeries_idxmax_spec hp
    have hcount : peak_hour_count rows = some (countHour rows ph) := hvm
    refine ⟨hne, hcount, ?_, ?_⟩
    · intro h c hm
      exact hle (h, c) (by unfold hour_counts at hm; exact hm)
    · unfold peak_hour_pct
      rw [hcount]
      rfl
  · intro lh hp
    unfold lowest_hour hour_counts at hp
    obtain ⟨_, hne, hvm, hle⟩ := countSeries_idxmin_spec hp
    have hcount : lowest_hour_count rows = some (countHour rows lh) := hvm
    refine ⟨hne, hcount, ?_, ?_⟩
    · intro h c hm
      exact hle (h, c) (by unfold hour_counts at hm; exact hm)
    · unfold lowest_hour_pct
      rw [hcount]
      rfl
  · intro pd hp
    unfold peak_day day_counts at hp
    obtain ⟨_, hne, hvm, hle⟩ := countSeries_idxmax_spec hp
    have hcount : peak_day_count rows = some (countDay rows pd) := hvm
    refine ⟨hne, hcount, ?_, ?_⟩
    · intro d c hm
      exact hle (d, c) (by unfold day_counts at hm; exact hm)
    · unfold peak_day_pct
      rw [hcount]
      rfl
  · intro sd hp
    unfold safest_day day_counts at hp
    obtain ⟨_, hne, hvm, hle⟩ := countSeries_idxmin_spec hp
    have hcount : safest_day_count rows = some (countDay rows sd) := hvm
    refine ⟨hne, hcount, ?_, ?_⟩
    · intro d c hm
      exact hle (d, c) (by unfold day_counts at hm; exact hm)
    · unfold safest_day_pct
      rw [hcount]
      rfl
  · intro pp hp
    unfold peak_period period_counts at hp
    obtain ⟨_, hne, hvm, hle⟩ := countSeries_idxmax_spec hp
    have hcount : peak_period_count rows = some (countPeriod rows pp) := hvm
    refine ⟨hne, hcount, ?_, ?_⟩
    · intro p c hm
      exact hle (p, c) (by unfold period_counts at hm; exact hm)
    · unfold peak_period_pct
      rw [hcount]
      rfl

/-- Witness for C3 on the demo table: the peak hour is 5 with two of the
three rows, and the most dangerous day is Tuesday. -/
theorem spec_C3_witness :
    countHour demo 5 ≠ 0 ∧
    peak_hour_count demo = some (countHour demo 5) ∧
    peak_day_count demo = some (countDay demo "Tuesday") :=
  ⟨((spec_C3 demo).1 5 (by decide)).1,
   ((spec_C3 demo).1 5 (by decide)).2.1,
   ((spec_C3 demo).2.2.1 "Tuesday" (by decide)).2.1⟩

/-- C4: the selected entry is the first CSV of the archive listing (it
ends in .csv, sits at some position, and no earlier entry ends in .csv),
and the loaded table never exceeds 50000 rows. -/
theorem spec_C4 :
    (∀ (l : List String) (f : String), selectCsv l = some f →
      endsWithPy f ".csv" = true ∧
      ∃ i, l.get? i = some f ∧
        ∀ j, j < i → ∀ g, l.get? j = some g → endsWithPy g ".csv" = false) ∧
    (∀ csv : List RawRow, (loadRows csv).length ≤ 50000) := by
  constructor
  · intro l
    induction l with
    | nil =>
      intro f hf
      simp [selectCsv] at hf
    | cons a rest ih =>
      intro f hf
      unfold selectCsv at hf
      rw [List.filter_cons] at hf
      split at hf
      · rename_i ha
        simp only [List.head?_cons, Option.some.injEq] at hf
        subst hf
        refine ⟨by simpa using ha, 0, rfl, ?_⟩
        intro j hj g hg
        omega
      · rename_i ha
        obtain ⟨hcsv, i, hi, hprev⟩ := ih f hf
        refine ⟨hcsv, i + 1, by simpa using hi, ?_⟩
        intro j hj g hg
        cases j with
        | zero =>
          have hga : g = a := by simpa using hg.symm
          subst hga
          simpa using ha
        | succ k =>
          exact hprev k (by omega) g (by simpa using hg)
  · intro csv
    unfold loadRows
    rw [List.length_take]
    exact Nat.min_le_left _ _

/-- Witness for C4: on a listing whose first entry is not a CSV, the
second entry is selected, and a three-row CSV loads within the bound. -/
theorem spec_C4_witness :
    endsWithPy "US_Accidents_March23.csv" ".csv" = true ∧
    (∃ i, demoListing.get? i = some "US_Accidents_March23.csv" ∧
      ∀ j, j < i → ∀ g, demoListing.get? j = some g →
        endsWithPy g ".csv" = false) ∧
    (loadRows [rawA, rawB, rawC]).length ≤ 50000 :=
  ⟨(spec_C4.1 demoListing "US_Accidents_March23.csv" (by decide)).1,
   (spec_C4.1 demoListing "US_Accidents_March23.csv" (by decide)).2,
   spec_C4.2 [rawA, rawB, rawC]⟩

/-- C9: Is_Weekend is always 0 or 1, it is 1 exactly on rows whose parsed
timestamp falls on Saturday or Sunday (pandas dayofweek 5 or 6),
unparseable rows get 0, the weekday and weekend counts add up to the
table length, and the two printed percentages add up to 100. -/
theorem spec_C9 :
    (∀ r : RawRow, (deriveRow r).isWeekend = 0 ∨ (deriveRow r).isWeekend = 1) ∧
    (∀ r : RawRow, ((deriveRow r).isWeekend = 1 ↔
      ∃ t, r.startTime = some t ∧ (t.dayofweek.val = 5 ∨ t.dayofweek.val = 6))) ∧
    (∀ r : RawRow, r.startTime = none → (deriveRow r).isWeekend = 0) ∧
    (∀ raws : List RawRow,
      countIsWeekend (deriveTable raws) 0 + countIsWeekend (deriveTable raws) 1
        = (deriveTable raws).length) ∧
    (∀ raws : List RawRow, raws ≠ [] →
      pct (countIsWeekend (deriveTable raws) 0) (deriveTable raws).length
        + pct (countIsWeekend (deriveTable raws) 1) (deriveTable raws).length
        = 100) := by
  have hpart : ∀ raws : List RawRow,
      countIsWeekend (deriveTable raws) 0 + countIsWeekend (deriveTable raws) 1
        = (deriveTable raws).length := by
    intro raws
    apply countIsWeekend_partition
    intro r hr
    unfold deriveTable at hr
    rw [List.mem_map] at hr
    obtain ⟨a, _, rfl⟩ := hr
    exact isWeekend_zero_or_one a
  refine ⟨isWeekend_zero_or_one, ?_, ?_, hpart, ?_⟩
  · intro r
    cases hst : r.startTime with
    | none => simp [deriveRow, hst]
    | some t =>
      simp only [deriveRow, hst]
      split
      · rename_i hwk
        simp only [true_iff]
        exact ⟨t, rfl, hwk⟩
      · rename_i hwk
        constructor
        · intro h
          exact absurd h (by omega)
        · rintro ⟨t2, ht2, hd⟩
          rw [Option.some.injEq] at ht2
          subst ht2
          exact absurd hd hwk
  · intro r h
    simp [deriveRow, h]
  · intro raws hne
    have hlen : (deriveTable raws).length ≠ 0 := by
      unfold deriveTable
      rw [List.length_map]
      simpa [List.length_eq_zero] using hne
    exact pct_add (hpart raws) hlen

/-- Witness for C9: a Saturday row has Is_Weekend 1, and on a two-row
table with one NaT row the two percentages add up to 100. -/
theorem spec_C9_witness :
    (deriveRow rawA).isWeekend = 1 ∧
    pct (countIsWeekend (deriveTable [rawA, rawNaT]) 0)
        (deriveTable [rawA, rawNaT]).length
      + pct (countIsWeekend (deriveTable [rawA, rawNaT]) 1)
        (deriveTable [rawA, rawNaT]).length = 100 :=
  ⟨(spec_C9.2.1 rawA).mpr
      ⟨{ hour := 5, dayofweek := 5, month := 1, year := 2020 }, rfl, by decide⟩,
   spec_C9.2.2.2.2 [rawA, rawNaT] (by decide)⟩

/-- C10: the recommended enforcement window is peak_hour - 1 to
peak_hour + 2 over the integers, with no clamping and no wrap modulo 24:
a peak hour of 0 prints -1:00-2:00 and a peak hour of 23 prints
22:00-25:00. -/
theorem spec_C10 (rows : List Row) :
    (∀ h : ℕ, peak_hour rows = some h →
      report_window rows = some (enforcement_window (h : ℤ)) ∧
      enforcement_window (h : ℤ)
        = toString ((h : ℤ) - 1) ++ ":00-" ++ toString ((h : ℤ) + 2) ++ ":00") ∧
    (peak_hour rows = some 0 → report_window rows = some "-1:00-2:00") ∧
    (peak_hour rows = some 23 → report_window rows = some "22:00-25:00") := by
  refine ⟨?_, ?_, ?_⟩
  · intro h hp
    constructor
    · unfold report_window
      rw [hp]
      rfl
    · rfl
  · intro hp
    unfold report_window
    rw [hp]
    have he : enforcement_window (((0 : ℕ) : ℤ)) = "-1:00-2:00" := by decide
    rw [Option.map_some', he]
  · intro hp
    unfold report_window
    rw [hp]
    have he : enforcement_window (((23 : ℕ) : ℤ)) = "22:00-25:00" := by decide
    rw [Option.map_some', he]

/-- Witness for C10 on the one-row tables at hours 0 and 23: the windows
run outside the 0..23 clock. -/
theorem spec_C10_witness :
    report_window demo0 = some "-1:00-2:00" ∧
    report_window demo23 = some "22:00-25:00" :=
  ⟨(spec_C10 demo0).2.1 (by decide), (spec_C10 demo23).2.2 (by decide)⟩

/-- Counterexample to C5: on a table holding Severity and two
environmental columns, Step 8 runs and its column list contains Severity,
which is not an environmental column, so the columns entering the
correlation are not exactly the environmental columns present. -/
theorem spec_C5_counterexample :
    runsCorr colsTwoEnv = true ∧
    "Severity" ∈ available_numeric colsTwoEnv ∧
    "Severity" ∉ claimed_corr_cols colsTwoEnv := by
  decide

/-- C5 amended: the columns entering the correlation are the columns of
numeric_cols (Severity plus the five environmental columns) present in
the table, kept in numeric_cols order. -/
theorem spec_C5_amended (cols : List String) (c : String) :
    c ∈ available_numeric cols ↔ c ∈ numeric_cols ∧ c ∈ cols := by
  unfold available_numeric
  rw [List.mem_filter]
  simp

end Traffic
